import Mathlib

/-!
Shallow embedding of the session/token lifecycle, request/response
interceptors, signup validation, connected-account labelling and the
repository import/sync tracker of the ai-code-review-assistant frontend.

Sources embedded:
* services/api.js (src/unnamed/part_003): axios instance, publicEndpoints,
  request interceptor (bearer attachment), response interceptor (401 handling);
* context/AuthContext.jsx: AuthProvider state, login, loginWithGoogle,
  signup, logout, checkAuth;
* App.jsx: GitHubCallback token installation;
* pages/SignUp.jsx: handleSubmit client-side validation;
* pages/ImportedRepos.jsx: handleSync, handleDelete, getStatusColor;
* pages/ConnectedAccounts.jsx (src/unnamed/part_002): startEditingLabel,
  saveLabel, the label input with maxLength 100;
* the server-side sync tracker and repository delete endpoint are backend
  code not present under src/ and are modelled from the spec where noted.
-/

namespace Spec2Proof

/-! ## Browser localStorage model

The Web Storage API used by the frontend: an association list of
string keys to string values, first binding wins, keys unique by
construction of setItem. -/

/-- Browser local storage: key/value pairs. -/
abbrev Storage : Type := List (String × String)

/-- localStorage.getItem(k): the value stored under k, if any. -/
def getItem (s : Storage) (k : String) : Option String :=
  (List.find? (fun kv => kv.1 == k) s).map (fun kv => kv.2)

/-- localStorage.removeItem(k): drop every binding of k. -/
def removeItem (s : Storage) (k : String) : Storage :=
  List.filter (fun kv => kv.1 != k) s

/-- localStorage.setItem(k, v): bind k to v, replacing any previous binding. -/
def setItem (s : Storage) (k v : String) : Storage :=
  (k, v) :: removeItem s k

/-- localStorage.clear(): remove every key. -/
def clear (_s : Storage) : Storage := []

/-! ## JS string containment

url.includes(endpoint) in services/api.js is substring containment;
modelled over the character lists of the strings. -/

/-- Helper for containsL: does the second list start with the first? -/
def startsWithL : List Char → List Char → Bool
  | [], _ => true
  | _ :: _, [] => false
  | a :: as, b :: bs => a == b && startsWithL as bs

/-- Does hay contain needle as a contiguous sublist? -/
def containsL (needle : List Char) : List Char → Bool
  | [] => startsWithL needle []
  | c :: cs => startsWithL needle (c :: cs) || containsL needle cs

/-- JS String.prototype.includes: substring test. -/
def includes (hay needle : String) : Bool :=
  containsL needle.toList hay.toList

/-! ## services/api.js: public endpoint list and the two interceptors -/

/-- The fixed allow-list of endpoints that do not require authentication. -/
def publicEndpoints : List String :=
  ["/api/auth/login/", "/api/auth/registration/", "/api/auth/google/",
   "/accounts/github/login/"]

/-- An outbound axios request config: target url (possibly absent) and the
Authorization header slot. -/
structure RequestConfig where
  url : Option String
  authorization : Option String

/-- The isPublicEndpoint test of the request interceptor:
publicEndpoints.some(e => config.url?.includes(e)); an absent url makes the
optional chain falsy for every endpoint. -/
def requestIsPublicEndpoint (config : RequestConfig) : Bool :=
  publicEndpoints.any (fun endp =>
    (config.url.map (fun u => includes u endp)).getD false)

/-- api.interceptors.request.use: attach the stored access token as a bearer
credential unless the target is a public endpoint or no token is stored. -/
def requestInterceptor (storage : Storage) (config : RequestConfig) :
    RequestConfig :=
  if requestIsPublicEndpoint config then config
  else
    match getItem storage "access" with
    | some token => { config with authorization := some ("Bearer " ++ token) }
    | none => config

/-- Browser-level state seen by the response interceptor: local storage, the
current location pathname, and whether the session-expired toast was shown. -/
structure BrowserState where
  storage : Storage
  pathname : String
  sessionExpiredToast : Bool

/-- An axios error as inspected by the response interceptor:
error.response?.status and error.config?.url. -/
structure ApiError where
  status : Option Nat
  url : Option String

/-- The isAuthEndpoint test of the response interceptor:
publicEndpoints.some(e => error.config?.url?.includes(e)). -/
def responseIsAuthEndpoint (url : Option String) : Bool :=
  publicEndpoints.any (fun endp =>
    (url.map (fun u => includes u endp)).getD false)

/-- api.interceptors.response.use error handler: on a 401 from a non-auth
endpoint remove both tokens, show the session-expired toast and navigate to
/login (unless already there); in every case re-reject the same error. -/
def responseErrorInterceptor (st : BrowserState) (error : ApiError) :
    BrowserState × ApiError :=
  if error.status == some 401 then
    if responseIsAuthEndpoint error.url then (st, error)
    else
      let storage1 := removeItem (removeItem st.storage "access") "refresh"
      let path := if st.pathname != "/login" then "/login" else st.pathname
      ({ storage := storage1, pathname := path, sessionExpiredToast := true },
       error)
  else (st, error)

/-! ## context/AuthContext.jsx: the session store -/

/-- AuthProvider state: browser storage plus the user flag (true models the
truthy user value, false models null). -/
structure AuthState where
  storage : Storage
  user : Bool

/-- The initial useState value: localStorage.getItem("access") ? true : null. -/
def initialUser (storage : Storage) : Bool :=
  (getItem storage "access").isSome

/-- checkAuth (run on mount): resync the user flag from the access token. -/
def checkAuth (st : AuthState) : AuthState :=
  { st with user := (getItem st.storage "access").isSome }

/-- A credential pair as returned by the auth endpoints: res.data.access and
res.data.refresh. -/
structure TokenPair where
  access : String
  refresh : String

/-- login(email, password): await api.post("/api/auth/login/", ...); a thrown
error leaves the state untouched, a response installs both tokens and sets
the user flag. -/
def login (st : AuthState) (resp : Except ApiError TokenPair) : AuthState :=
  match resp with
  | .error _ => st
  | .ok d =>
      { storage := setItem (setItem st.storage "access" d.access)
          "refresh" d.refresh,
        user := true }

/-- loginWithGoogle(accessToken): await api.post("/api/auth/google/", ...);
same state effect as login. -/
def loginWithGoogle (st : AuthState) (resp : Except ApiError TokenPair) :
    AuthState :=
  match resp with
  | .error _ => st
  | .ok d =>
      { storage := setItem (setItem st.storage "access" d.access)
          "refresh" d.refresh,
        user := true }

/-- signup(email, password1, password2): await
api.post("/api/auth/registration/", ...); same state effect as login. -/
def signup (st : AuthState) (resp : Except ApiError TokenPair) : AuthState :=
  match resp with
  | .error _ => st
  | .ok d =>
      { storage := setItem (setItem st.storage "access" d.access)
          "refresh" d.refresh,
        user := true }

/-- logout(): localStorage.clear(); setUser(null). -/
def logout (st : AuthState) : AuthState :=
  { storage := clear st.storage, user := false }

/-- App.jsx GitHubCallback effect on the session store: when both the access
and the refresh query parameters are present, store them; the user flag of
the provider is not updated by the callback. Navigation targets are not
modelled here. -/
def gitHubCallback (st : AuthState) (access refresh : Option String) :
    AuthState :=
  match access, refresh with
  | some a, some r =>
      { st with storage :=
          setItem (setItem st.storage "access" a) "refresh" r }
  | _, _ => st

/-! ## pages/SignUp.jsx: handleSubmit -/

/-- Outcome of a signup form submission: whether the registration request was
issued, the inline validation toast if any, and the resulting session state. -/
structure SignUpResult where
  networkCalled : Bool
  inlineError : Option String
  state : AuthState

/-- handleSubmit: validate passwords client-side; on validation failure show
an inline error and stop before any network call; otherwise remove both
stored tokens ("Clear any expired tokens before attempting signup") and call
signup with the server response resp. -/
def handleSubmit (st : AuthState) (password1 password2 : String)
    (resp : Except ApiError TokenPair) : SignUpResult :=
  if password1 != password2 then
    { networkCalled := false,
      inlineError := some "Passwords do not match",
      state := st }
  else if password1.length < 8 then
    { networkCalled := false,
      inlineError := some "Password must be at least 8 characters long",
      state := st }
  else
    let cleared : AuthState :=
      { st with storage :=
          removeItem (removeItem st.storage "access") "refresh" }
    { networkCalled := true,
      inlineError := none,
      state := signup cleared resp }

/-! ## Reachable session-store states

The events that mutate the session store in the frontend: provider mount and
remount, the three auth-gateway operations (with an arbitrary server
response each), logout, the 401 response interceptor (with an arbitrary
target url), the GitHub OAuth callback, and a signup form submission. -/

/-- Reachable states of the session store, starting from an empty local
storage at first mount. -/
inductive Reachable : AuthState → Prop
  | start : Reachable { storage := [], user := initialUser [] }
  | remount {st} : Reachable st →
      Reachable { storage := st.storage, user := initialUser st.storage }
  | checkAuthStep {st} : Reachable st → Reachable (checkAuth st)
  | loginStep {st} (resp : Except ApiError TokenPair) : Reachable st →
      Reachable (login st resp)
  | googleStep {st} (resp : Except ApiError TokenPair) : Reachable st →
      Reachable (loginWithGoogle st resp)
  | signUpSubmit {st} (p1 p2 : String) (resp : Except ApiError TokenPair) :
      Reachable st → Reachable (handleSubmit st p1 p2 resp).state
  | logoutStep {st} : Reachable st → Reachable (logout st)
  | resp401 {st} (p : String) (b : Bool) (url : Option String) :
      Reachable st →
      Reachable { st with
        storage := (responseErrorInterceptor
          { storage := st.storage, pathname := p, sessionExpiredToast := b }
          { status := some 401, url := url }).1.storage }
  | githubCallbackStep {st} (access refresh : Option String) :
      Reachable st → Reachable (gitHubCallback st access refresh)

/-! ## pages/ImportedRepos.jsx and the server-side sync tracker -/

/-- Sync status of an imported repository, the four statuses rendered by
getStatusColor in ImportedRepos.jsx. -/
inductive SyncStatus
  | pending
  | syncing
  | success
  | failed
deriving DecidableEq

/-- Per-repository sync tracking state: status plus the optional
last_synced and last_sync_error fields rendered by ImportedRepos.jsx. -/
structure RepoSyncState where
  status : SyncStatus
  lastSyncedAt : Option Nat
  lastSyncError : Option String
deriving DecidableEq

/-- Modelled from the spec: the server-side import operation (backend code
not under src/) creates an ImportedRepository with initial status pending. -/
def importedRepoInit : RepoSyncState :=
  { status := .pending, lastSyncedAt := none, lastSyncError := none }

/-- Modelled from the spec: the server-side sync state machine (backend code
not under src/) — pending goes to syncing on a sync request; syncing goes to
success recording lastSyncedAt, or to failed recording lastSyncError. -/
inductive SyncStep : RepoSyncState → RepoSyncState → Prop
  | request (r : RepoSyncState) : r.status = .pending →
      SyncStep r { r with status := .syncing }
  | complete (r : RepoSyncState) (t : Nat) : r.status = .syncing →
      SyncStep r { r with status := .success, lastSyncedAt := some t }
  | fail (r : RepoSyncState) (e : String) : r.status = .syncing →
      SyncStep r { r with status := .failed, lastSyncError := some e }

/-- Sync states reachable from a fresh import. -/
def SyncReachable (r : RepoSyncState) : Prop :=
  Relation.ReflTransGen SyncStep importedRepoInit r

/-- handleSync(repoId): the client issues POST /api/repositories/id/sync/
regardless of the current status (no client-side blocking). -/
def handleSync (repoId : Nat) : String :=
  "/api/repositories/" ++ toString repoId ++ "/sync/"

/-- getStatusColor: badge style per status string (default for unknown). -/
def getStatusColor (status : String) : String :=
  if status == "success" then "bg-green-100 text-green-800"
  else if status == "failed" then "bg-red-100 text-red-800"
  else if status == "syncing" then "bg-blue-100 text-blue-800"
  else if status == "pending" then "bg-yellow-100 text-yellow-800"
  else "bg-gray-100 text-gray-800"

/-- handleDelete(repoId): ask window.confirm first; when declined return
without issuing any request, when confirmed issue
DELETE /api/repositories/id/. The result is the request url issued, if any. -/
def handleDelete (confirmAnswer : Bool) (repoId : Nat) : Option String :=
  if !confirmAnswer then none
  else some ("/api/repositories/" ++ toString repoId ++ "/")

/-- Modelled from the spec: deleteRepository(id) on the server (backend code
not under src/) is a hard delete — the repository row is removed outright. -/
def deleteRepository (repos : List (Nat × RepoSyncState)) (rid : Nat) :
    List (Nat × RepoSyncState) :=
  repos.filter (fun p => p.1 != rid)

/-- The client confirmation gate composed with the server-side hard delete:
no request and no change when declined, request plus hard delete when
confirmed. -/
def handleDeleteFlow (confirmAnswer : Bool)
    (repos : List (Nat × RepoSyncState)) (rid : Nat) :
    Option String × List (Nat × RepoSyncState) :=
  match handleDelete confirmAnswer rid with
  | none => (none, repos)
  | some req => (some req, deleteRepository repos rid)

/-! ## pages/ConnectedAccounts.jsx: account labels -/

/-- A linked external account as rendered by ConnectedAccounts.jsx. -/
structure LinkedAccount where
  provider : String
  uid : String
  username : String
  label : Option String
deriving DecidableEq

/-- ConnectedAccounts component state: the fetched accounts, the
editingLabel key if any, and the labelValue input state. -/
structure ConnectedAccountsState where
  accounts : List LinkedAccount
  editingLabel : Option String
  labelValue : String

/-- startEditingLabel(provider, uid, currentLabel): open the editor keyed by
provider-uid and preload the input with currentLabel or the empty string. -/
def startEditingLabel (st : ConnectedAccountsState)
    (provider uid : String) (currentLabel : Option String) :
    ConnectedAccountsState :=
  { st with editingLabel := some (provider ++ "-" ++ uid),
            labelValue := currentLabel.getD "" }

/-- cancelEditing: close the editor and reset the input. -/
def cancelEditing (st : ConnectedAccountsState) : ConnectedAccountsState :=
  { st with editingLabel := none, labelValue := "" }

/-- The maxLength attribute of the label input element. -/
def labelInputMaxLength : Nat := 100

/-- saveLabel(provider, uid): the body of the POST to
/api/auth/update-account-label/ — provider, uid and the current labelValue,
submitted with no length check of its own. -/
def saveLabel (st : ConnectedAccountsState) (provider uid : String) :
    String × String × String :=
  (provider, uid, st.labelValue)

/-- After a successful saveLabel the component only closes the editor
(setEditingLabel(null)); the accounts list is refetched separately. -/
def saveLabelDone (st : ConnectedAccountsState) : ConnectedAccountsState :=
  { st with editingLabel := none }

/-- Reachable ConnectedAccounts component states, relative to an environment
predicate env describing which account lists the server can return. The
typeLabel event carries the input-element guarantee that a value entered
through the maxLength-100 input has length at most 100; startEdit is only
invoked from the rendered list, so its account is one of the fetched ones. -/
inductive CAReachable (env : List LinkedAccount → Prop) :
    ConnectedAccountsState → Prop
  | start :
      CAReachable env { accounts := [], editingLabel := none, labelValue := "" }
  | fetchOk {st} (accs : List LinkedAccount) (h : env accs) :
      CAReachable env st → CAReachable env { st with accounts := accs }
  | startEdit {st} (a : LinkedAccount) (ha : a ∈ st.accounts) :
      CAReachable env st →
      CAReachable env (startEditingLabel st a.provider a.uid a.label)
  | typeLabel {st} (s : String) (h : s.length ≤ labelInputMaxLength) :
      CAReachable env st → CAReachable env { st with labelValue := s }
  | cancel {st} : CAReachable env st → CAReachable env (cancelEditing st)
  | saveOk {st} : CAReachable env st → CAReachable env (saveLabelDone st)

/-! ## Concrete states used by the counterexamples -/

/-- A session state reached by a successful login followed by a 401 from a
protected endpoint: the interceptor removed both tokens but the provider
user flag was not updated. -/
def c2State : AuthState :=
  { login { storage := [], user := initialUser [] } (.ok ⟨"T1", "R1"⟩) with
    storage := (responseErrorInterceptor
      { storage := (login { storage := [], user := initialUser [] }
          (.ok ⟨"T1", "R1"⟩)).storage,
        pathname := "/profile", sessionExpiredToast := false }
      { status := some 401, url := some "/api/submissions/" }).1.storage }

/-- A session state holding a stale credential pair before a signup
submission. -/
def c4State : AuthState :=
  { storage := [("access", "OLD"), ("refresh", "OLDR")], user := true }

/-- A 101-character label, longer than the input maxLength. -/
def longLabel : String := String.mk (List.replicate 101 'a')

/-- A linked account whose server-stored label exceeds 100 characters. -/
def longLabelAccount : LinkedAccount :=
  { provider := "github", uid := "1", username := "u", label := some longLabel }

/-- The ConnectedAccounts state after fetching longLabelAccount and opening
its label editor. -/
def c8State : ConnectedAccountsState :=
  startEditingLabel
    { accounts := [longLabelAccount], editingLabel := none, labelValue := "" }
    longLabelAccount.provider longLabelAccount.uid longLabelAccount.label

/-! ## Storage lemmas -/

/-- Looking up the key just removed yields nothing. -/
theorem getItem_removeItem_self (s : Storage) (k : String) :
    getItem (removeItem s k) k = none := by
  induction s with
  | nil => rfl
  | cons hd tl ih =>
      simp only [removeItem, List.filter_cons]
      by_cases h : hd.1 = k
      · rw [if_neg (by simp [h])]
        exact ih
      · rw [if_pos (by simp [h])]
        have hf : (hd.1 == k) = false := beq_eq_false_iff_ne.mpr h
        simp only [getItem, List.find?_cons, hf]
        exact ih

/-- Removing one key leaves every other key untouched. -/
theorem getItem_removeItem_ne (s : Storage) (k k' : String) (h : k' ≠ k) :
    getItem (removeItem s k) k' = getItem s k' := by
  induction s with
  | nil => rfl
  | cons hd tl ih =>
      simp only [removeItem, List.filter_cons]
      by_cases hh : hd.1 = k
      · rw [if_neg (by simp [hh])]
        have hf : (hd.1 == k') = false :=
          beq_eq_false_iff_ne.mpr (by rw [hh]; exact fun hc => h hc.symm)
        rw [show getItem (hd :: tl) k' = getItem tl k' from by
          simp only [getItem, List.find?_cons, hf]]
        exact ih
      · rw [if_pos (by simp [hh])]
        by_cases he : hd.1 = k'
        · have ht : (hd.1 == k') = true := beq_iff_eq.mpr he
          simp only [getItem, List.find?_cons, ht]
        · have hf : (hd.1 == k') = false := beq_eq_false_iff_ne.mpr he
          simp only [getItem, List.find?_cons, hf]
          exact ih

/-- Looking up the key just set yields the new value. -/
theorem getItem_setItem_self (s : Storage) (k v : String) :
    getItem (setItem s k v) k = some v := by
  simp [getItem, setItem, List.find?_cons]

/-- Setting one key leaves every other key untouched. -/
theorem getItem_setItem_ne (s : Storage) (k v : String) (k' : String)
    (h : k' ≠ k) :
    getItem (setItem s k v) k' = getItem s k' := by
  have hf : (k == k') = false :=
    beq_eq_false_iff_ne.mpr (fun hc => h hc.symm)
  simp only [getItem, setItem, List.find?_cons, hf]
  exact getItem_removeItem_ne s k k' h

/-! ## Substring lemmas -/

/-- startsWithL tests list-prefix decomposition. -/
theorem startsWithL_iff (n h : List Char) :
    startsWithL n h = true ↔ ∃ t, h = n ++ t := by
  induction n generalizing h with
  | nil => simp [startsWithL]
  | cons a as ih =>
      cases h with
      | nil =>
          simp [startsWithL]
      | cons b bs =>
          simp only [startsWithL, Bool.and_eq_true, beq_iff_eq, ih,
            List.cons_append, List.cons.injEq]
          constructor
          · rintro ⟨rfl, t, rfl⟩
            exact ⟨t, rfl, rfl⟩
          · rintro ⟨t, rfl, rfl⟩
            exact ⟨rfl, t, rfl⟩

/-- containsL tests contiguous-sublist decomposition. -/
theorem containsL_iff (n h : List Char) :
    containsL n h = true ↔ ∃ pre post, h = pre ++ n ++ post := by
  induction h with
  | nil =>
      simp only [containsL, startsWithL_iff]
      constructor
      · rintro ⟨t, ht⟩
        exact ⟨[], t, ht⟩
      · rintro ⟨pre, post, hp⟩
        rcases List.append_eq_nil.mp hp.symm with ⟨h1, h2⟩
        rcases List.append_eq_nil.mp h1 with ⟨rfl, rfl⟩
        exact ⟨[], by simp [h2]⟩
  | cons c cs ih =>
      simp only [containsL, Bool.or_eq_true, startsWithL_iff, ih]
      constructor
      · rintro (⟨t, ht⟩ | ⟨pre, post, hp⟩)
        · exact ⟨[], t, by simpa using ht⟩
        · exact ⟨c :: pre, post, by simp [hp]⟩
      · rintro ⟨pre, post, hp⟩
        cases pre with
        | nil =>
            exact Or.inl ⟨post, by simpa using hp⟩
        | cons p ps =>
            simp only [List.cons_append, List.cons.injEq] at hp
            exact Or.inr ⟨ps, post, hp.2⟩

/-! ## Claim theorems -/

/-- Claim C1: for every response to an outbound call with status 401, if the
target url is not in the public allow-list the interceptor removes both the
access and the refresh token from storage (touching no other key), surfaces
the session-expired notice and lands on the login page, re-rejecting the
same error; if the target url is in the public allow-list the 401 is passed
through with state and error completely unchanged. -/
theorem response401Handling (st : BrowserState) (e : ApiError)
    (h401 : e.status = some 401) :
    (responseIsAuthEndpoint e.url = false →
      getItem (responseErrorInterceptor st e).1.storage "access" = none ∧
      getItem (responseErrorInterceptor st e).1.storage "refresh" = none ∧
      (∀ k, k ≠ "access" → k ≠ "refresh" →
        getItem (responseErrorInterceptor st e).1.storage k =
          getItem st.storage k) ∧
      (responseErrorInterceptor st e).1.sessionExpiredToast = true ∧
      (responseErrorInterceptor st e).1.pathname = "/login" ∧
      (responseErrorInterceptor st e).2 = e) ∧
    (responseIsAuthEndpoint e.url = true →
      responseErrorInterceptor st e = (st, e)) := by
  constructor
  · intro hpub
    have hr : responseErrorInterceptor st e =
        ({ storage := removeItem (removeItem st.storage "access") "refresh",
           pathname :=
             if st.pathname != "/login" then "/login" else st.pathname,
           sessionExpiredToast := true }, e) := by
      simp [responseErrorInterceptor, h401, hpub]
    refine ⟨?_, ?_, ?_, ?_, ?_, ?_⟩
    · rw [hr]
      exact getItem_removeItem_ne _ _ _ (by decide) |>.trans
        (getItem_removeItem_self _ _)
    · rw [hr]
      exact getItem_removeItem_self _ _
    · intro k hka hkr
      rw [hr]
      exact (getItem_removeItem_ne _ _ _ hkr).trans
        (getItem_removeItem_ne _ _ _ hka)
    · rw [hr]
    · rw [hr]
      by_cases hp : st.pathname = "/login" <;> simp [hp]
    · rw [hr]
  · intro hpub
    simp [responseErrorInterceptor, h401, hpub]

/-- Witness for response401Handling: a 401 from the protected submissions
endpoint clears the access token, and a 401 from the public login endpoint
leaves everything untouched. -/
theorem response401Handling_witness :
    getItem (responseErrorInterceptor
      { storage := [("access", "T1"), ("refresh", "R1"), ("theme", "dark")],
        pathname := "/profile", sessionExpiredToast := false }
      { status := some 401, url := some "/api/submissions/" }).1.storage
      "access" = none ∧
    responseErrorInterceptor
      { storage := [("access", "T1"), ("refresh", "R1")],
        pathname := "/profile", sessionExpiredToast := false }
      { status := some 401, url := some "/api/auth/login/" } =
    ({ storage := [("access", "T1"), ("refresh", "R1")],
       pathname := "/profile", sessionExpiredToast := false },
     { status := some 401, url := some "/api/auth/login/" }) := by
  constructor
  · exact ((response401Handling _ _ rfl).1 (by decide)).1
  · exact (response401Handling _ _ rfl).2 (by decide)

/-- Claim C3: the request interceptor attaches Authorization Bearer T to
every call whose target is not in the public allow-list when T is the
stored access token, and leaves the config of an allow-listed call
untouched (no Authorization header attached). -/
theorem requestBearerAttachment (storage : Storage) (config : RequestConfig)
    (T : String) :
    (requestIsPublicEndpoint config = false →
      getItem storage "access" = some T →
      requestInterceptor storage config =
        { config with authorization := some ("Bearer " ++ T) }) ∧
    (requestIsPublicEndpoint config = true →
      requestInterceptor storage config = config) := by
  constructor
  · intro hpub htok
    simp [requestInterceptor, hpub, htok]
  · intro hpub
    simp [requestInterceptor, hpub]

/-- Witness for requestBearerAttachment: a protected call with stored token
T1 gets the bearer header; a login call keeps its config untouched. -/
theorem requestBearerAttachment_witness :
    requestInterceptor [("access", "T1")]
      { url := some "/api/submissions/", authorization := none } =
      { url := some "/api/submissions/",
        authorization := some ("Bearer " ++ "T1") } ∧
    requestInterceptor [("access", "T1")]
      { url := some "/api/auth/login/", authorization := none } =
      { url := some "/api/auth/login/", authorization := none } := by
  constructor
  · exact (requestBearerAttachment _ _ "T1").1 (by decide) rfl
  · exact (requestBearerAttachment _ _ "T1").2 (by decide)

/-- Claim C10: a call target is classified public exactly when its url
contains one of the four fixed allow-list strings as a substring, and the
request-side and response-side classifications agree on every url. -/
theorem publicClassificationAgree :
    (∀ url auth : Option String,
      requestIsPublicEndpoint { url := url, authorization := auth } =
        responseIsAuthEndpoint url) ∧
    (∀ u : String, responseIsAuthEndpoint (some u) = true ↔
      ∃ endp ∈ publicEndpoints,
        ∃ pre post : List Char, u.toList = pre ++ endp.toList ++ post) ∧
    publicEndpoints = ["/api/auth/login/", "/api/auth/registration/",
      "/api/auth/google/", "/accounts/github/login/"] := by
  refine ⟨fun url auth => rfl, fun u => ?_, rfl⟩
  simp only [responseIsAuthEndpoint, List.any_eq_true, Option.map_some',
    Option.getD_some, includes, containsL_iff]

/-- Claim C2 counterexample: after a successful login followed by a 401 from
a protected endpoint, the session store is in a reachable state whose user
flag is still true although neither the access nor the refresh token is
stored, so the claimed invariant fails. -/
theorem authFlagInvariant_cex :
    Reachable c2State ∧ c2State.user = true ∧
    getItem c2State.storage "access" = none ∧
    getItem c2State.storage "refresh" = none := by
  refine ⟨?_, rfl, by decide, by decide⟩
  exact Reachable.resp401 "/profile" false (some "/api/submissions/")
    (Reachable.loginStep (.ok ⟨"T1", "R1"⟩) Reachable.start)

/-- Claim C2 amended: the user flag is derived from the access token alone,
and only at provider sync points — checkAuth sets the flag exactly when the
access token is present, the three auth operations install both tokens and
set the flag, and logout empties storage and clears it; the 401 interceptor
and the GitHub OAuth callback change storage without touching the flag, so
between such an event and the next sync the flag can disagree with the
stored tokens. -/
theorem authFlagAmended :
    (∀ st : AuthState,
      (checkAuth st).user = (getItem st.storage "access").isSome) ∧
    (∀ (st : AuthState) (d : TokenPair),
      (login st (.ok d)).user = true ∧
      getItem (login st (.ok d)).storage "access" = some d.access ∧
      getItem (login st (.ok d)).storage "refresh" = some d.refresh) ∧
    (∀ (st : AuthState) (d : TokenPair),
      (loginWithGoogle st (.ok d)).user = true ∧
      getItem (loginWithGoogle st (.ok d)).storage "access" = some d.access ∧
      getItem (loginWithGoogle st (.ok d)).storage "refresh" =
        some d.refresh) ∧
    (∀ (st : AuthState) (d : TokenPair),
      (signup st (.ok d)).user = true ∧
      getItem (signup st (.ok d)).storage "access" = some d.access ∧
      getItem (signup st (.ok d)).storage "refresh" = some d.refresh) ∧
    (∀ st : AuthState, (logout st).user = false ∧
      ∀ k, getItem (logout st).storage k = none) ∧
    (∀ (st : AuthState) (p : String) (b : Bool) (url : Option String),
      ({ st with storage := (responseErrorInterceptor
          { storage := st.storage, pathname := p, sessionExpiredToast := b }
          { status := some 401, url := url }).1.storage } : AuthState).user =
        st.user) ∧
    (∀ (st : AuthState) (a r : String),
      (gitHubCallback st (some a) (some r)).user = st.user) := by
  refine ⟨fun st => rfl, ?_, ?_, ?_, fun st => ⟨rfl, fun k => rfl⟩,
    fun st p b url => rfl, fun st a r => rfl⟩ <;>
  · intro st d
    refine ⟨rfl, ?_, getItem_setItem_self _ _ _⟩
    show getItem (setItem (setItem st.storage "access" d.access)
      "refresh" d.refresh) "access" = some d.access
    rw [getItem_setItem_ne _ _ _ _ (by decide)]
    exact getItem_setItem_self _ _ _

/-- Claim C4 counterexample: a signup submission that passes client-side
validation but fails at the server does not leave the session store
unchanged — the stale credential pair present before the call has been
removed by the submission handler. -/
theorem authOpsFailureUnchanged_cex :
    getItem c4State.storage "access" = some "OLD" ∧
    getItem c4State.storage "refresh" = some "OLDR" ∧
    (handleSubmit c4State "password123" "password123"
      (.error { status := some 500,
                url := some "/api/auth/registration/" })).networkCalled =
      true ∧
    getItem (handleSubmit c4State "password123" "password123"
      (.error { status := some 500,
                url := some "/api/auth/registration/" })).state.storage
      "access" = none := by
  refine ⟨rfl, rfl, by decide, by decide⟩

/-- Claim C4 amended: each of login, loginWithGoogle and signup installs both
tokens and sets the authenticated flag on success and leaves the state
exactly unchanged on failure; the signup form submission additionally
removes both stored tokens before issuing the registration request, so a
submission that fails at the server leaves the store cleared of its tokens
rather than as it was. -/
theorem authOpsSuccessFailure :
    (∀ (st : AuthState) (e : ApiError), login st (.error e) = st) ∧
    (∀ (st : AuthState) (e : ApiError), loginWithGoogle st (.error e) = st) ∧
    (∀ (st : AuthState) (e : ApiError), signup st (.error e) = st) ∧
    (∀ (st : AuthState) (d : TokenPair),
      (login st (.ok d)).user = true ∧
      getItem (login st (.ok d)).storage "access" = some d.access ∧
      getItem (login st (.ok d)).storage "refresh" = some d.refresh ∧
      (loginWithGoogle st (.ok d)).user = true ∧
      getItem (loginWithGoogle st (.ok d)).storage "access" = some d.access ∧
      getItem (loginWithGoogle st (.ok d)).storage "refresh" =
        some d.refresh ∧
      (signup st (.ok d)).user = true ∧
      getItem (signup st (.ok d)).storage "access" = some d.access ∧
      getItem (signup st (.ok d)).storage "refresh" = some d.refresh) ∧
    (∀ (st : AuthState) (p1 p2 : String) (e : ApiError),
      p1 = p2 → 8 ≤ p1.length →
      (handleSubmit st p1 p2 (.error e)).state =
        { st with storage :=
            removeItem (removeItem st.storage "access") "refresh" }) := by
  refine ⟨fun st e => rfl, fun st e => rfl, fun st e => rfl, ?_, ?_⟩
  · intro st d
    have ha : getItem (setItem (setItem st.storage "access" d.access)
        "refresh" d.refresh) "access" = some d.access := by
      rw [getItem_setItem_ne _ _ _ _ (by decide)]
      exact getItem_setItem_self _ _ _
    have hr : getItem (setItem (setItem st.storage "access" d.access)
        "refresh" d.refresh) "refresh" = some d.refresh :=
      getItem_setItem_self _ _ _
    exact ⟨rfl, ha, hr, rfl, ha, hr, rfl, ha, hr⟩
  · intro st p1 p2 e hpq hlen
    have hne : (p1 != p2) = false := by simp [hpq]
    have hlt : ¬(p1.length < 8) := not_lt.mpr hlen
    simp [handleSubmit, hne, hlt, signup]

/-- Witness for authOpsSuccessFailure: a concrete failed signup submission
with matching 9-character passwords clears the stale token pair. -/
theorem authOpsSuccessFailure_witness :
    (handleSubmit { storage := [("access", "A0"), ("refresh", "R0")], user := true }
      "password1" "password1"
      (.error { status := some 500, url := none })).state =
    { storage := removeItem (removeItem [("access", "A0"), ("refresh", "R0")] "access") "refresh",
      user := true } := by
  exact authOpsSuccessFailure.2.2.2.2
    { storage := [("access", "A0"), ("refresh", "R0")], user := true }
    "password1" "password1" { status := some 500, url := none } rfl
    (by decide)

/-- Claim C5: a signup submission whose passwords differ or whose password is
shorter than 8 characters fails with an inline client-side error, makes no
network call and leaves the session state untouched; the registration
request is issued, with no inline error, exactly when the passwords match
and have length at least 8. -/
theorem signupValidation (st : AuthState) (p1 p2 : String)
    (resp : Except ApiError TokenPair) :
    ((p1 ≠ p2 ∨ p1.length < 8) →
      (handleSubmit st p1 p2 resp).networkCalled = false ∧
      (handleSubmit st p1 p2 resp).inlineError ≠ none ∧
      (handleSubmit st p1 p2 resp).state = st) ∧
    (p1 = p2 → 8 ≤ p1.length →
      (handleSubmit st p1 p2 resp).networkCalled = true ∧
      (handleSubmit st p1 p2 resp).inlineError = none) := by
  constructor
  · intro hbad
    by_cases hpq : p1 = p2
    · rcases hbad with hne | hlen
      · exact absurd hpq hne
      · have heq : (p1 != p2) = false := by simp [hpq]
        simp [handleSubmit, heq, hlen]
    · have hne : (p1 != p2) = true := by simp [hpq]
      simp [handleSubmit, hne]
  · intro hpq hlen
    have heq : (p1 != p2) = false := by simp [hpq]
    have hlt : ¬(p1.length < 8) := not_lt.mpr hlen
    simp [handleSubmit, heq, hlt]

/-- Witness for signupValidation: the 5-character password short is rejected
with an inline error before any network call, while a matching 9-character
password issues the request. -/
theorem signupValidation_witness :
    (handleSubmit { storage := [], user := false } "short" "short"
      (.ok ⟨"T1", "R1"⟩)).networkCalled = false ∧
    (handleSubmit { storage := [], user := false } "password1" "password1"
      (.ok ⟨"T1", "R1"⟩)).networkCalled = true := by
  constructor
  · exact ((signupValidation _ _ _ _).1 (Or.inr (by decide))).1
  · exact ((signupValidation _ _ _ _).2 rfl (by decide)).1

/-- Claim C9: logout clears the entire browser local storage — after logout
no key at all is still bound, including keys unrelated to the credential
pair — and resets the user flag. -/
theorem logoutClearsAllStorage :
    ∀ (st : AuthState) (k : String),
      getItem (logout st).storage k = none ∧ (logout st).user = false := by
  intro st k
  exact ⟨rfl, rfl⟩

/-- Claim C6: every sync-status step is pending to syncing, syncing to
success, or syncing to failed; a step into success sets lastSyncedAt, a step
into failed sets lastSyncError, and in every state reachable from a
fresh import a success status carries lastSyncedAt and a failed status carries
lastSyncError. -/
theorem syncStatusMachine :
    (∀ r r', SyncStep r r' →
      (r.status = .pending ∧ r'.status = .syncing ∧
        r'.lastSyncedAt = r.lastSyncedAt ∧
        r'.lastSyncError = r.lastSyncError) ∨
      (r.status = .syncing ∧ r'.status = .success ∧
        r'.lastSyncedAt ≠ none) ∨
      (r.status = .syncing ∧ r'.status = .failed ∧
        r'.lastSyncError ≠ none)) ∧
    (∀ r, SyncReachable r →
      (r.status = .success → r.lastSyncedAt ≠ none) ∧
      (r.status = .failed → r.lastSyncError ≠ none)) := by
  constructor
  · intro r r' hstep
    cases hstep with
    | request h => exact Or.inl ⟨h, rfl, rfl, rfl⟩
    | complete t h => exact Or.inr (Or.inl ⟨h, rfl, by simp⟩)
    | fail e h => exact Or.inr (Or.inr ⟨h, rfl, by simp⟩)
  · intro r hreach
    induction hreach with
    | refl => simp [importedRepoInit]
    | tail hab hstep ih =>
        cases hstep with
        | request h => simp
        | complete t h => simp
        | fail e h => simp

/-- Witness for syncStatusMachine: a concrete run import, sync, complete
reaches a success state whose lastSyncedAt is set. -/
theorem syncStatusMachine_witness :
    ({ { importedRepoInit with status := SyncStatus.syncing } with
        status := SyncStatus.success,
        lastSyncedAt := some 5 } : RepoSyncState).lastSyncedAt ≠ none := by
  refine (syncStatusMachine.2 _ ?_).1 rfl
  exact Relation.ReflTransGen.tail
    (Relation.ReflTransGen.tail Relation.ReflTransGen.refl
      (SyncStep.request importedRepoInit rfl))
    (SyncStep.complete { importedRepoInit with status := .syncing } 5 rfl)

/-- Claim C7: handleDelete issues no request and changes nothing when the
confirmation is declined; when confirmed it issues exactly the DELETE
request for the repository, after which the repository id is gone from the
store while every other repository survives; a request is only ever issued
on a confirmed invocation. -/
theorem deleteConfirmationGate :
    ∀ (repos : List (Nat × RepoSyncState)) (rid : Nat),
      handleDeleteFlow false repos rid = (none, repos) ∧
      (handleDeleteFlow true repos rid).1 =
        some ("/api/repositories/" ++ toString rid ++ "/") ∧
      (∀ p ∈ (handleDeleteFlow true repos rid).2, p.1 ≠ rid) ∧
      (∀ p ∈ repos, p.1 ≠ rid → p ∈ (handleDeleteFlow true repos rid).2) ∧
      (∀ c : Bool, (handleDeleteFlow c repos rid).1 ≠ none → c = true) := by
  intro repos rid
  refine ⟨rfl, rfl, ?_, ?_, ?_⟩
  · intro p hp
    have hpf : p ∈ repos.filter (fun q => q.1 != rid) := hp
    exact bne_iff_ne.mp (List.mem_filter.mp hpf).2
  · intro p hp hne
    show p ∈ repos.filter (fun q => q.1 != rid)
    exact List.mem_filter.mpr ⟨hp, bne_iff_ne.mpr hne⟩
  · intro c
    cases c with
    | false => intro hc; exact absurd rfl hc
    | true => intro _; rfl

/-- Witness for deleteConfirmationGate: declining leaves a one-repository
store untouched, and after a confirmed delete of id 1 the unrelated
repository with id 2 is still present. -/
theorem deleteConfirmationGate_witness :
    handleDeleteFlow false [(2, importedRepoInit)] 1 =
      (none, [(2, importedRepoInit)]) ∧
    (2, importedRepoInit) ∈ (handleDeleteFlow true [(2, importedRepoInit)] 1).2 := by
  refine ⟨(deleteConfirmationGate _ _).1, ?_⟩
  exact (deleteConfirmationGate [(2, importedRepoInit)] 1).2.2.2.1
    (2, importedRepoInit) (List.mem_singleton.mpr rfl) (by decide)

/-- Claim C8 counterexample: saveLabel performs no length check of its own,
so from a reachable component state holding a fetched account whose stored
label has 101 characters, opening the editor and saving submits a label of
length 101, exceeding the claimed 100-character bound. -/
theorem labelMaxLength_cex :
    CAReachable (fun _ => True) c8State ∧
    (saveLabel c8State "github" "1").2.2.length = 101 := by
  constructor
  · exact CAReachable.startEdit longLabelAccount (List.mem_singleton.mpr rfl)
      (CAReachable.fetchOk [longLabelAccount] trivial CAReachable.start)
  · show longLabel.length = 101
    show (List.replicate 101 'a').length = 101
    simp

/-- Claim C8 amended: the 100-character bound is enforced only by the
maxLength attribute of the label input, not by saveLabel itself; provided
every label the server returns has length at most 100, every reachable
labelValue — and hence every label submitted by saveLabel — has length at
most 100, while a fetched label longer than 100 characters would be loaded
into the editor and submitted unmodified. -/
theorem labelMaxLengthAmended (env : List LinkedAccount → Prop)
    (henv : ∀ accs, env accs → ∀ a ∈ accs, ∀ l, a.label = some l →
      l.length ≤ labelInputMaxLength) :
    ∀ st, CAReachable env st →
      st.labelValue.length ≤ labelInputMaxLength ∧
      (∀ a ∈ st.accounts, ∀ l, a.label = some l →
        l.length ≤ labelInputMaxLength) ∧
      (∀ provider uid,
        (saveLabel st provider uid).2.2.length ≤ labelInputMaxLength) := by
  intro st hreach
  induction hreach with
  | start =>
      refine ⟨by simp [labelInputMaxLength], ?_, ?_⟩
      · intro a ha
        exact absurd ha (List.not_mem_nil a)
      · intro provider uid
        simp [saveLabel, labelInputMaxLength]
  | fetchOk accs h _ ih =>
      exact ⟨ih.1, henv accs h, fun provider uid => ih.1⟩
  | startEdit a ha _ ih =>
      have hval : (a.label.getD "").length ≤ labelInputMaxLength := by
        cases hl : a.label with
        | none => simp [labelInputMaxLength]
        | some l => simpa using ih.2.1 a ha l hl
      exact ⟨hval, ih.2.1, fun provider uid => hval⟩
  | typeLabel s h _ ih =>
      exact ⟨h, ih.2.1, fun provider uid => h⟩
  | cancel _ ih =>
      exact ⟨by simp [cancelEditing, labelInputMaxLength], ih.2.1,
        fun provider uid => by simp [saveLabel, cancelEditing,
          labelInputMaxLength]⟩
  | saveOk _ ih =>
      exact ⟨ih.1, ih.2.1, fun provider uid => ih.1⟩

/-- Witness for labelMaxLengthAmended: with a server that only ever returns
the empty account list, the freshly mounted component state has a labelValue
within the bound. -/
theorem labelMaxLengthAmended_witness :
    ({ accounts := [], editingLabel := none, labelValue := "" } :
      ConnectedAccountsState).labelValue.length ≤ labelInputMaxLength := by
  refine (labelMaxLengthAmended (fun accs => accs = []) ?_ _
    CAReachable.start).1
  rintro accs rfl a ha
  exact absurd ha (List.not_mem_nil a)

end Spec2Proof
